import Mathlib

/-
Verification of the cluster lifecycle task orchestrator: a shallow embedding of
the promotion handler (`src/controller/pod/promotionhandler.go`) and of the
clone service (`src/unnamed/part_000`, package `cloneservice`), together with
theorems about the embedded operations.

Conventions of the embedding:
* Go strings are Lean `String`; Go `map[string]string` values are association
  lists read through `lookupLabel` (missing key yields the zero value "",
  duplicate keys resolve to the last binding, as `encoding/json` and literal
  maps do).
* External collaborators (the resource store, the remote command executor, the
  backup subsystem) are inputs: each call's outcome is a field of an
  environment record, and the store's contents are explicit state.
* Fallible steps carry `Option String` errors (`none` = Go `nil` error).
* A Go runtime panic (the failed interface type assertion in the promotion
  wait, the out-of-range slice in the workflow id computation) is modelled as
  an explicit outcome, never as a normal return value.
-/

/-! ## Repository constants

The `config`, `crv1` and `msgs` packages are repository code that only the two
embedded files consume; the exact constant strings do not influence any claim
(only the distinctness of task-type names, which is preserved). -/

def LABEL_PG_CLUSTER : String := "pg-cluster"

def LABEL_PGO_CLONE : String := "pgo-clone"

def LABEL_PGO_CLONE_STEP_1 : String := "pgo-clone-step-1"

def LABEL_BACKREST_STORAGE_TYPE : String := "backrest-storage-type"

def LABEL_PGO_BACKREST_REPO : String := "pgo-backrest-repo"

def LABEL_PGBOUNCER : String := "crunchy-pgbouncer"

def LABEL_PGBOUNCER_ROTATE_PASSWORD : String := "rotatepgbouncerpassword"

def LABEL_PGBOUNCER_TASK_CLUSTER : String := "pgbouncer-task-cluster"

def ANNOTATION_IS_UPGRADED : String := "pgo-upgraded"

def ANNOTATIONS_FALSE : String := "false"

def DEFAULT_PATRONI_PORT : String := "8009"

def CompletedStatus : String := "completed"

def PgtaskWorkflow : String := "workflow"

def PgtaskWorkflowCloneType : String := "cloneworkflow"

def PgtaskCloneStep1 : String := "clonestep1"

def PgtaskWorkflowID : String := "workflowid"

def PgtaskWorkflowSubmittedStatus : String := "task submitted"

def UpgradeError : String := " has not been upgraded to the current operator version and must be upgraded before this action can be run"

/-! ## Go string helpers -/

/-- Whether `needle` is a leading segment of `hay` (character lists). -/
def strStarts : List Char → List Char → Bool
  | [], _ => true
  | _ :: _, [] => false
  | a :: as, b :: bs => a == b && strStarts as bs

/-- Whether `needle` occurs contiguously anywhere in `hay` (character lists). -/
def strHasSub (needle : List Char) : List Char → Bool
  | [] => strStarts needle []
  | c :: rest => strStarts needle (c :: rest) || strHasSub needle rest

/-- Go `strings.Contains s sub`. -/
def goContains (s sub : String) : Bool :=
  strHasSub sub.data s.data

/-- Go map read over an association list: last binding wins, missing key
yields the zero value `""`. -/
def lookupLabel (labels : List (String × String)) (k : String) : String :=
  ((((labels.filter (fun kv => kv.1 == k))).getLast?).map (fun kv => kv.2)).getD ("")

/-! ## Data model shared by both components -/

/-- `crv1.Pgcluster`: the fields the embedded code reads. -/
structure Pgcluster where
  name : String
  namespc : String
  labels : List (String × String)
  annotations : List (String × String)
  userLabels : List (String × String)
  deriving DecidableEq

/-- `crv1.Pgtask`: metadata name and labels, plus the spec fields the embedded
code reads or writes. -/
structure Pgtask where
  name : String
  labels : List (String × String)
  specNamespace : String
  specName : String
  taskType : String
  specStatus : String
  parameters : List (String × String)
  deriving DecidableEq

/-- The control-plane resource store contents for one namespace. -/
structure Store where
  clusters : List Pgcluster
  tasks : List Pgtask
  deriving DecidableEq

/-- One call made against the resource store, in call order. -/
inductive StoreOp where
  | getCluster (name : String)
  | listTasks (selector : List (String × String))
  | createTask (name : String)
  deriving DecidableEq

/-- `Get` of a cluster by name: `some` iff a cluster of that name is stored. -/
def getCluster (store : Store) (name : String) : Option Pgcluster :=
  (store.clusters.filter (fun c => c.name == name)).head?

/-- Label-selector match: AND over exact-match key=value pairs. -/
def matchesSelector (labels : List (String × String)) (sel : List (String × String)) : Bool :=
  sel.all (fun kv => lookupLabel labels kv.1 == kv.2)

/-! ## Promotion wait (`waitForStandbyPromotion`) -/

/-- The decoded JSON values that can appear in the signal-B status payload.
`arr` and `obj` stand for the remaining non-scalar decodings of
`encoding/json` into `interface\x7b\x7d`; only their non-`bool`-ness matters. -/
inductive JVal where
  | null
  | bool (b : Bool)
  | str (s : String)
  | num (n : Int)
  | arr
  | obj
  deriving DecidableEq

/-- Go JSON-object map read: last binding wins, `none` for a missing key. -/
def jlookup (obj : List (String × JVal)) (k : String) : Option JVal :=
  (((obj.filter (fun kv => kv.1 == k))).getLast?).map (fun kv => kv.2)

/-- What one poll tick observes from the two probes. `statusPayload` is the
result of `json.Unmarshal` on the signal-B stdout: `none` when unmarshalling
failed (the Go map stays nil), otherwise the decoded object. -/
structure TickInput where
  recoveryOut : String
  statusPayload : Option (List (String × JVal))
  deriving DecidableEq

/-- Outcome of the signal-B readiness test on one tick. -/
inductive TickResult where
  | done
  | cont
  | fault
  deriving DecidableEq

/-- The readiness condition of the wait loop body:
`primaryJSON["state"] == "running" && (primaryJSON["pending_restart"] == nil ||
!primaryJSON["pending_restart"].(bool))`, with Go's evaluation order: the
type assertion `.(bool)` is reached only when state equals "running" and
`pending_restart` is a non-nil value, and it panics when that value is not a
boolean (`fault`). -/
def evalSignalB (payload : Option (List (String × JVal))) : TickResult :=
  let obj := payload.getD []
  if jlookup obj ("state") = some (JVal.str ("running")) then
    match jlookup obj ("pending_restart") with
    | none => TickResult.done
    | some JVal.null => TickResult.done
    | some (JVal.bool b) => if b then TickResult.cont else TickResult.done
    | some _ => TickResult.fault
  else TickResult.cont

/-- One `<-tick` iteration of the wait loop: re-check signal A only while
`recoveryDisabled` is false (it becomes true when the probe stdout contains
"f"), then evaluate signal B whenever `recoveryDisabled` holds. Returns the
updated `recoveryDisabled` and the tick's outcome. -/
def tickStep (recoveryDisabled : Bool) (inp : TickInput) : Bool × TickResult :=
  let rd := if recoveryDisabled then true else goContains inp.recoveryOut ("f")
  (rd, if rd then evalSignalB inp.statusPayload else TickResult.cont)

/-- Outcome of one whole wait invocation. -/
inductive WaitOutcome where
  | promoted
  | timedOut (msg : String)
  | panicked
  deriving DecidableEq

/-- The deadline error of `waitForStandbyPromotion`. -/
def timeoutMessage (clusterName : String) : String :=
  "timed out waiting for cluster " ++ (clusterName ++ " to accept writes after disabling standby mode")

/-- The `select` loop of `waitForStandbyPromotion`: the list carries the
observations of the successive 500 ms ticks; when it is exhausted the
5-minute `duration` channel fires and the deadline error is returned. -/
def waitLoop (clusterName : String) (recoveryDisabled : Bool) : List TickInput → WaitOutcome
  | [] => WaitOutcome.timedOut (timeoutMessage clusterName)
  | inp :: rest =>
    match (tickStep recoveryDisabled inp).2 with
    | TickResult.done => WaitOutcome.promoted
    | TickResult.fault => WaitOutcome.panicked
    | TickResult.cont => waitLoop clusterName (tickStep recoveryDisabled inp).1 rest

/-- `waitForStandbyPromotion`: starts with `recoveryDisabled = false`. -/
def waitForStandbyPromotion (clusterName : String) (ticks : List TickInput) : WaitOutcome :=
  waitLoop clusterName false ticks

/-- The poll interval of the wait loop, in milliseconds (`500 * time.Millisecond`). -/
def pollIntervalMs : Nat := 500

/-- The wait deadline, in milliseconds (`time.Minute * 5`). -/
def waitTimeoutMs : Nat := 5 * 60 * 1000

/-- Number of poll ticks that fit before the deadline fires. -/
def maxTicks : Nat := waitTimeoutMs / pollIntervalMs

/-- The successive values taken by `recoveryDisabled` along a run, one entry
per processed tick. -/
def rdTrace (recoveryDisabled : Bool) : List TickInput → List Bool
  | [] => []
  | inp :: rest =>
    (tickStep recoveryDisabled inp).1 :: rdTrace (tickStep recoveryDisabled inp).1 rest

/-- The `pg_is_in_recovery` probe command (signal A). -/
def isInRecoveryCMD : List String := ["psql", "-t", "-c", "select pg_is_in_recovery()"]

/-- The leader status probe command (signal B). -/
def leaderStatusCMD : List String := ["curl", "localhost:" ++ (DEFAULT_PATRONI_PORT ++ "/master")]

/-! ## Post-failover backup orchestration (`cleanAndCreatePostFailoverBackup`) -/

/-- Outcomes of the external calls the orchestrator makes: the pod lookup
(`GetPods` returns a pod-name list and an error) and the two backup-subsystem
calls. -/
structure BackupEnv where
  pods : List String
  getErr : Option String
  cleanupErr : Option String
  createErr : Option String
  deriving DecidableEq

/-- The backup-subsystem calls actually issued, in order. -/
inductive BackupStep where
  | cleanup
  | create (podName : String)
  deriving DecidableEq

/-- The error built when the backrest-repo pod lookup does not yield exactly
one pod. -/
def podsLenMsg (clusterName : String) : String :=
  "pods len != 1 for cluster " ++ clusterName

/-- `cleanAndCreatePostFailoverBackup`: looks up the backrest-repo pod, checks
`len(pods.Items) != 1` before checking the lookup error, then cleans backup
resources and creates the post-failover backup task, stopping at the first
failing step. Returns the issued backup-subsystem calls and the error. -/
def cleanAndCreatePostFailoverBackup (env : BackupEnv) (clusterName : String) :
    List BackupStep × Option String :=
  if env.pods.length ≠ 1 then ([], some (podsLenMsg clusterName))
  else match env.getErr with
  | some e => ([], some e)
  | none =>
    match env.cleanupErr with
    | some e => ([BackupStep.cleanup], some e)
    | none =>
      match env.createErr with
      | some e => ([BackupStep.cleanup, BackupStep.create (env.pods.getD 0 (""))], some e)
      | none => ([BackupStep.cleanup, BackupStep.create (env.pods.getD 0 (""))], none)

/-! ## Standby-disable promotion handler (`handleStandbyPromotion`) -/

/-- Outcomes of the external calls the handler makes beyond the wait: the
credential-rotation task creation and the backup orchestration environment. -/
structure HandlerEnv where
  ticks : List TickInput
  rotateErr : Option String
  backupEnv : BackupEnv
  deriving DecidableEq

/-- The steps the handler performs, in order. -/
inductive HandlerStep where
  | waitStep
  | rotateStep (clusterName : String) (params : List (String × String))
  | backupStep (calls : List BackupStep)
  deriving DecidableEq

/-- Result of one handler invocation: the performed steps and the returned
error, or a propagated runtime fault. -/
inductive HandlerResult where
  | finished (trace : List HandlerStep) (err : Option String)
  | faulted
  deriving DecidableEq

/-- The parameters of the credential-rotation (pgBouncer password) task. -/
def rotateParams (clusterName : String) : List (String × String) :=
  [(LABEL_PGBOUNCER_ROTATE_PASSWORD, "true"), (LABEL_PGBOUNCER_TASK_CLUSTER, clusterName)]

/-- `handleStandbyPromotion`: wait for promotion, then — only when the
cluster's pgBouncer feature label is "true" — create the rotation task, then
run the backup orchestration; the first failing step aborts the rest. -/
def handleStandbyPromotion (env : HandlerEnv) (cluster : Pgcluster) : HandlerResult :=
  match waitForStandbyPromotion cluster.name env.ticks with
  | WaitOutcome.panicked => HandlerResult.faulted
  | WaitOutcome.timedOut m => HandlerResult.finished [HandlerStep.waitStep] (some m)
  | WaitOutcome.promoted =>
    if lookupLabel cluster.labels LABEL_PGBOUNCER == "true" then
      match env.rotateErr with
      | some e =>
        HandlerResult.finished
          [HandlerStep.waitStep, HandlerStep.rotateStep cluster.name (rotateParams cluster.name)]
          (some e)
      | none =>
        HandlerResult.finished
          [HandlerStep.waitStep, HandlerStep.rotateStep cluster.name (rotateParams cluster.name),
            HandlerStep.backupStep (cleanAndCreatePostFailoverBackup env.backupEnv cluster.name).1]
          (cleanAndCreatePostFailoverBackup env.backupEnv cluster.name).2
    else
      HandlerResult.finished
        [HandlerStep.waitStep,
          HandlerStep.backupStep (cleanAndCreatePostFailoverBackup env.backupEnv cluster.name).1]
        (cleanAndCreatePostFailoverBackup env.backupEnv cluster.name).2

/-! ## Clone service (`Clone`, `createWorkflowTask`, `validateCloneRequest`) -/

/-- `msgs.CloneRequest`. -/
structure CloneRequest where
  sourceClusterName : String
  targetClusterName : String
  pvcSize : String
  backrestPVCSize : String
  backrestStorageSource : String
  enableMetrics : Bool
  deriving DecidableEq

inductive StatusCode where
  | Ok
  | Error
  deriving DecidableEq

/-- `msgs.Status`. -/
structure CloneStatus where
  code : StatusCode
  msg : String
  deriving DecidableEq

/-- `msgs.CloneResponse`. -/
structure CloneResponse where
  status : CloneStatus
  targetClusterName : String
  workflowID : String
  deriving DecidableEq

/-- Outcomes of the external calls the clone service makes that are not part
of the store state: the two validation helpers (`apiserver.ValidateQuantity`
and `util.ValidateBackrestStorageTypeOnBackupRestore`, repository code outside
the embedded files, kept abstract), the kernel uuid read, the short random
uid, the current timestamp, and the error outcomes of the store list/create
calls. -/
structure CloneEnv where
  validateQuantityErr : String → Option String
  validateStorageErr : String → String → Option String
  uuidFile : Except String String
  uid : String
  nowStr : String
  listTasksErr : Option String
  createWorkflowErr : Option String
  createCloneErr : Option String

/-- Result of one clone request: the response, the store afterwards, the store
calls made in order, and whether the request panicked instead of returning
(the `u[:len(u)-1]` slice in `createWorkflowTask` panics when the uuid read
yields an empty string; when `panicked` is true the other fields carry no
meaning). -/
structure CloneResult where
  response : CloneResponse
  store : Store
  ops : List StoreOp
  panicked : Bool
  deriving DecidableEq

/-- An error response: `Status.Code = Error`, message set, other fields zero. -/
def errResponse (e : String) : CloneResponse :=
  { status := { code := StatusCode.Error, msg := e }, targetClusterName := "", workflowID := "" }

/-- `validateCloneRequest`: empty source name, empty target name, the two PVC
size quantities, then the backrest storage source against the source
cluster's configured storage type. -/
def validateCloneRequest (env : CloneEnv) (request : CloneRequest) (cluster : Pgcluster) :
    Option String :=
  if request.sourceClusterName == "" then some ("the source cluster name must be set")
  else if request.targetClusterName == "" then some ("the target cluster name must be set")
  else match env.validateQuantityErr request.pvcSize with
  | some e => some ("could not validate PVC size " ++ (request.pvcSize ++ (": " ++ e)))
  | none =>
    match env.validateQuantityErr request.backrestPVCSize with
    | some e => some ("could not validate PVC size " ++ (request.backrestPVCSize ++ (": " ++ e)))
    | none =>
      env.validateStorageErr request.backrestStorageSource
        (lookupLabel cluster.userLabels LABEL_BACKREST_STORAGE_TYPE)

/-- Result of `createWorkflowTask`: a panic, an error, or the workflow id
together with the store afterwards; either way the store calls made. -/
inductive CwtResult where
  | panicked
  | err (e : String) (store : Store) (ops : List StoreOp)
  | ok (id : String) (store : Store) (ops : List StoreOp)

/-- The workflow Pgtask that `createWorkflowTask` builds: named
`<target>-<uid>-<workflow-clone-type>`, labeled and parameterised with the
target cluster name and the workflow id, and carrying the submission
timestamp parameter. -/
def workflowTaskRecord (targetClusterName uid ns nowStr id : String) : Pgtask :=
  { name := targetClusterName ++ ("-" ++ (uid ++ ("-" ++ PgtaskWorkflowCloneType)))
    labels := [(LABEL_PG_CLUSTER, targetClusterName), (PgtaskWorkflowID, id)]
    specNamespace := ns
    specName := targetClusterName ++ ("-" ++ (uid ++ ("-" ++ PgtaskWorkflowCloneType)))
    taskType := PgtaskWorkflow
    specStatus := ""
    parameters := [(PgtaskWorkflowSubmittedStatus, nowStr),
      (LABEL_PG_CLUSTER, targetClusterName), (PgtaskWorkflowID, id)] }

/-- `createWorkflowTask`: read `/proc/sys/kernel/random/uuid`, strip the
trailing newline (`u[:len(u)-1]`, a panic on an empty read), create the
workflow Pgtask, and return the workflow id on success. -/
def createWorkflowTask (env : CloneEnv) (store : Store) (targetClusterName uid ns : String) :
    CwtResult :=
  match env.uuidFile with
  | Except.error e => CwtResult.err e store []
  | Except.ok u =>
    if u.data.length = 0 then CwtResult.panicked
    else
      let id := String.mk u.data.dropLast
      let task := workflowTaskRecord targetClusterName uid ns env.nowStr id
      match env.createWorkflowErr with
      | some e => CwtResult.err e store [StoreOp.createTask task.name]
      | none =>
        CwtResult.ok id { store with tasks := store.tasks ++ [task] } [StoreOp.createTask task.name]

/-- `util.CloneTask` (the fields set by `Clone`). -/
structure CloneTask where
  backrestPVCSize : String
  backrestStorageSource : String
  enableMetrics : Bool
  pgoUser : String
  pvcSize : String
  sourceClusterName : String
  targetClusterName : String
  taskStepLabel : String
  taskType : String
  timestamp : String
  workflowID : String
  deriving DecidableEq

/-- The `util.CloneTask` value that `Clone` assembles from the validated
request, the requesting user, the current time and the workflow id. -/
def cloneTaskFields (request : CloneRequest) (pgouser nowStr workflowID : String) : CloneTask :=
  { backrestPVCSize := request.backrestPVCSize
    backrestStorageSource := request.backrestStorageSource
    enableMetrics := request.enableMetrics
    pgoUser := pgouser
    pvcSize := request.pvcSize
    sourceClusterName := request.sourceClusterName
    targetClusterName := request.targetClusterName
    taskStepLabel := LABEL_PGO_CLONE_STEP_1
    taskType := PgtaskCloneStep1
    timestamp := nowStr
    workflowID := workflowID }

/-- Modelled from the spec: `util.CloneTask.Create` is repository code that is
not among the embedded files. Per the spec (§4.5 step 6) the created Task is
the first step of the clone chain: it has the clone-step-1 task type, carries
all validated parameters (storage sizes, storage source, metrics flag,
requesting user, timestamp, workflow identifier), and is labeled for the
target cluster, for this workflow, and as an in-progress clone operation —
the labels the conflict check's selector (§4.5 step 4) matches on. Its status
starts non-"completed" (zero value). -/
def cloneTaskCreate (ct : CloneTask) : Pgtask :=
  { name := ct.targetClusterName ++ ("-" ++ LABEL_PGO_CLONE_STEP_1)
    labels := [(LABEL_PGO_CLONE, "true"), (LABEL_PG_CLUSTER, ct.targetClusterName),
      (PgtaskWorkflowID, ct.workflowID), (ct.taskStepLabel, "true")]
    specNamespace := ""
    specName := ct.targetClusterName ++ ("-" ++ LABEL_PGO_CLONE_STEP_1)
    taskType := ct.taskType
    specStatus := ""
    parameters := [("PVCSize", ct.pvcSize), ("BackrestPVCSize", ct.backrestPVCSize),
      ("BackrestStorageSource", ct.backrestStorageSource),
      ("EnableMetrics", if ct.enableMetrics then "true" else "false"),
      ("PGOUser", ct.pgoUser), ("SourceClusterName", ct.sourceClusterName),
      ("Timestamp", ct.timestamp), (PgtaskWorkflowID, ct.workflowID)] }

/-- The selector `pgo-clone=true,pg-cluster=<target>` of the conflict check. -/
def cloneTaskSelector (targetClusterName : String) : List (String × String) :=
  [(LABEL_PGO_CLONE, "true"), (LABEL_PG_CLUSTER, targetClusterName)]

/-- The conflict error naming the first non-completed clone task. -/
def ongoingCloneMsg (taskName : String) : String :=
  "Could not clone cluster: there exists an ongoing clone task: [" ++
    (taskName ++ ("]. " ++ "If you believe this is an error, try deleting this pgtask CRD."))

/-- `Clone`: get the source cluster, validate the request, check the upgrade
annotation, ensure the target does not exist, list clone tasks for the target
and reject on any non-completed one, create the workflow task, then create
the clone-step-1 task; the first failing step returns an Error-status
response. -/
def Clone (env : CloneEnv) (store : Store) (request : CloneRequest) (ns pgouser : String) :
    CloneResult :=
  let ops0 := [StoreOp.getCluster request.sourceClusterName]
  match getCluster store request.sourceClusterName with
  | none =>
    { response := errResponse ("Could not get cluster: " ++ (request.sourceClusterName ++ " not found"))
      store := store, ops := ops0, panicked := false }
  | some sourcePgcluster =>
    match validateCloneRequest env request sourcePgcluster with
    | some e => { response := errResponse e, store := store, ops := ops0, panicked := false }
    | none =>
      if lookupLabel sourcePgcluster.annotations ANNOTATION_IS_UPGRADED == ANNOTATIONS_FALSE then
        { response := errResponse (sourcePgcluster.name ++ UpgradeError)
          store := store, ops := ops0, panicked := false }
      else
        let ops1 := ops0 ++ [StoreOp.getCluster request.targetClusterName]
        match getCluster store request.targetClusterName with
        | some _ =>
          { response := errResponse ("Could not clone cluster: " ++ (request.targetClusterName ++ " already exists"))
            store := store, ops := ops1, panicked := false }
        | none =>
          let sel := cloneTaskSelector request.targetClusterName
          let ops2 := ops1 ++ [StoreOp.listTasks sel]
          match env.listTasksErr with
          | some e =>
            { response := errResponse ("Could not clone cluster: could not validate " ++ e)
              store := store, ops := ops2, panicked := false }
          | none =>
            match (store.tasks.filter (fun t => matchesSelector t.labels sel)).find?
                (fun t => t.specStatus != CompletedStatus) with
            | some task =>
              { response := errResponse (ongoingCloneMsg task.specName)
                store := store, ops := ops2, panicked := false }
            | none =>
              match createWorkflowTask env store request.targetClusterName env.uid ns with
              | CwtResult.panicked =>
                { response := errResponse (""), store := store, ops := ops2, panicked := true }
              | CwtResult.err e store2 wops =>
                { response := errResponse ("could not create clone workflow task: " ++ e)
                  store := store2, ops := ops2 ++ wops, panicked := false }
              | CwtResult.ok workflowID store2 wops =>
                let task := cloneTaskCreate (cloneTaskFields request pgouser env.nowStr workflowID)
                let ops3 := ops2 ++ wops ++ [StoreOp.createTask task.name]
                match env.createCloneErr with
                | some e =>
                  { response := errResponse ("Could not create clone task: " ++ e)
                    store := store2, ops := ops3, panicked := false }
                | none =>
                  { response :=
                      { status := { code := StatusCode.Ok, msg := "" },
                        targetClusterName := request.targetClusterName,
                        workflowID := workflowID },
                    store := { store2 with tasks := store2.tasks ++ [task] },
                    ops := ops3, panicked := false }

/-- Recogniser for the workflow record of a given target and workflow id. -/
def isWorkflowRecordFor (target wid : String) (t : Pgtask) : Bool :=
  t.taskType == PgtaskWorkflow && lookupLabel t.labels LABEL_PG_CLUSTER == target &&
    lookupLabel t.labels PgtaskWorkflowID == wid

/-- Recogniser for the clone-step-1 task of a given target and workflow id. -/
def isCloneStep1For (target wid : String) (t : Pgtask) : Bool :=
  t.taskType == PgtaskCloneStep1 && lookupLabel t.labels LABEL_PG_CLUSTER == target &&
    lookupLabel t.labels PgtaskWorkflowID == wid

/-! ## Concrete instances used by witnesses and counterexamples -/

/-- A decoded signal-B payload whose state is "running" and whose
`pending_restart` field is present but not a boolean: the wait loop's type
assertion `.(bool)` panics on it. -/
def badPendingPayload : List (String × JVal) :=
  [(("state"), JVal.str ("running")), (("pending_restart"), JVal.str ("yes"))]

/-- A backup environment with exactly one located pod whose cleanup call
fails. -/
def backupEnvCleanupFails : BackupEnv :=
  { pods := ["repo-pod"], getErr := none, cleanupErr := some ("cleanup failed"), createErr := none }

/-- A tick on which the promotion wait succeeds: recovery probe reports false
and the leader status is running with no pending restart. -/
def promotedTick : TickInput := ⟨"f", some [(("state"), JVal.str ("running"))]⟩

/-- A cluster with the pgBouncer (credential-rotation) feature label set. -/
def rotClusterC : Pgcluster :=
  { name := "c", namespc := "ns", labels := [(LABEL_PGBOUNCER, "true")],
    annotations := [], userLabels := [] }

/-- A clone environment in which every external validation succeeds and every
store write succeeds. -/
def plainCloneEnv : CloneEnv :=
  { validateQuantityErr := fun _ => none
    validateStorageErr := fun _ _ => none
    uuidFile := Except.ok ("0123456789abcdef0123456789abcdef0123\n")
    uid := "abcd"
    nowStr := "2020-01-01T00:00:00Z"
    listTasksErr := none
    createWorkflowErr := none
    createCloneErr := none }

/-- A store holding exactly the source cluster "a" (upgraded) and no tasks. -/
def storeWithA : Store :=
  { clusters := [{ name := "a", namespc := "ns", labels := [], annotations := [], userLabels := [] }]
    tasks := [] }

/-- A clone request whose target cluster name is empty. -/
def emptyTargetReq : CloneRequest :=
  { sourceClusterName := "a", targetClusterName := "", pvcSize := "",
    backrestPVCSize := "", backrestStorageSource := "", enableMetrics := false }

/-- An in-progress clone task for target "b", as the conflict check selects it. -/
def ongoingTaskB : Pgtask :=
  { name := "b-pgo-clone", labels := [(LABEL_PGO_CLONE, "true"), (LABEL_PG_CLUSTER, "b")],
    specNamespace := "ns", specName := "b-pgo-clone", taskType := PgtaskCloneStep1,
    specStatus := "running", parameters := [] }

/-- The store for the C7 witness: source "a" exists, target "b" does not, and
one non-completed clone task for "b" is present. -/
def storeWithConflict : Store :=
  { clusters := [{ name := "a", namespc := "ns", labels := [], annotations := [], userLabels := [] }]
    tasks := [ongoingTaskB] }

/-- A well-formed clone request a → b. -/
def cloneReqAB : CloneRequest :=
  { sourceClusterName := "a", targetClusterName := "b", pvcSize := "1Gi",
    backrestPVCSize := "1Gi", backrestStorageSource := "", enableMetrics := false }

/-! ## Helper lemmas: substring facts -/

theorem strStarts_append (l t : List Char) : strStarts l (l ++ t) = true := by
  induction l with
  | nil => rfl
  | cons a as ih => simp [strStarts, ih]

theorem strStarts_self (l : List Char) : strStarts l l = true := by
  have h := strStarts_append l []
  simpa using h

theorem strHasSub_nil (l : List Char) : strHasSub [] l = true := by
  cases l with
  | nil => rfl
  | cons c rest => simp [strHasSub, strStarts]

theorem strHasSub_append_left (sub post : List Char) (h : strHasSub sub post = true) :
    ∀ pre : List Char, strHasSub sub (pre ++ post) = true := by
  intro pre
  induction pre with
  | nil => simpa using h
  | cons p ps ih => simp [strHasSub, ih]

theorem strHasSub_at (pre sub post : List Char) : strHasSub sub (pre ++ (sub ++ post)) = true := by
  induction pre with
  | nil =>
    cases sub with
    | nil => simpa using strHasSub_nil post
    | cons c cs =>
      have h := strStarts_append (c :: cs) post
      simp only [List.cons_append] at h
      simp [strHasSub, h]
  | cons p ps ih => simp [strHasSub, ih]

theorem goContains_mid (pre sub post : String) : goContains (pre ++ (sub ++ post)) sub = true := by
  unfold goContains
  rw [String.data_append, String.data_append]
  exact strHasSub_at pre.data sub.data post.data

theorem goContains_append_sub (pre sub : String) : goContains (pre ++ sub) sub = true := by
  unfold goContains
  rw [String.data_append]
  have h := strHasSub_at pre.data sub.data []
  simpa using h

theorem goContains_append_left (a b sub : String) (h : goContains b sub = true) :
    goContains (a ++ b) sub = true := by
  unfold goContains at h ⊢
  rw [String.data_append]
  exact strHasSub_append_left sub.data b.data h a.data

/-! ## Helper lemmas: the promotion wait -/

theorem tickStep_true_fst (inp : TickInput) : (tickStep true inp).1 = true := rfl

theorem tickStep_snd_of_cont (rd : Bool) (inp : TickInput)
    (h : evalSignalB inp.statusPayload = TickResult.cont) :
    (tickStep rd inp).2 = TickResult.cont := by
  unfold tickStep
  by_cases hrd : rd
  · simpa [hrd] using h
  · simp only [Bool.not_eq_true] at hrd
    cases hcf : goContains inp.recoveryOut ("f") <;> simp [hrd, hcf, h]

theorem waitLoop_never (clusterName : String) (ticks : List TickInput) :
    (∀ inp ∈ ticks, evalSignalB inp.statusPayload = TickResult.cont) →
    ∀ rd : Bool, waitLoop clusterName rd ticks = WaitOutcome.timedOut (timeoutMessage clusterName) := by
  induction ticks with
  | nil => intro _ rd; rfl
  | cons inp rest ih =>
    intro h rd
    have h1 : (tickStep rd inp).2 = TickResult.cont :=
      tickStep_snd_of_cont rd inp (h inp (List.mem_cons_self inp rest))
    have h2 : ∀ i ∈ rest, evalSignalB i.statusPayload = TickResult.cont :=
      fun i hi => h i (List.mem_cons_of_mem inp hi)
    simp only [waitLoop, h1]
    exact ih h2 (tickStep rd inp).1

theorem strHasSub_f_char (l : List Char) :
    strHasSub ['f'] l = l.any (fun c => 'f' == c) := by
  induction l with
  | nil => rfl
  | cons c rest ih => simp [strHasSub, strStarts, ih]

theorem goContains_f (s : String) : (goContains s ("f") = true ↔ 'f' ∈ s.data) := by
  have hdata : ("f" : String).data = ['f'] := rfl
  unfold goContains
  rw [hdata, strHasSub_f_char]
  simp only [List.any_eq_true, beq_iff_eq]
  constructor
  · rintro ⟨c, hc, h⟩
    exact h ▸ hc
  · intro h
    exact ⟨_, h, rfl⟩

/-- C3 (confirmed): within a single promotion wait, `recoveryDisabled` is
monotonic. Once it is true: every tick leaves it true, every later observation
along any run keeps it true, and the tick's behaviour no longer depends on the
is-in-recovery probe output (signal A is not re-checked), so a transient
"still in recovery" read cannot reset it. -/
theorem recoveryDisabled_monotonic :
    (∀ inp : TickInput, (tickStep true inp).1 = true) ∧
    (∀ ticks : List TickInput, (rdTrace true ticks).all (fun b => b) = true) ∧
    (∀ (p : Option (List (String × JVal))) (s₁ s₂ : String),
      tickStep true ⟨s₁, p⟩ = tickStep true ⟨s₂, p⟩) := by
  refine ⟨fun inp => rfl, ?_, fun p s₁ s₂ => rfl⟩
  intro ticks
  induction ticks with
  | nil => rfl
  | cons inp rest ih =>
    have h1 : (tickStep true inp).1 = true := rfl
    simp only [rdTrace, h1, List.all_cons, Bool.true_and]
    exact ih

/-- C5 (confirmed): the wait polls every 500 ms against a 5-minute deadline
(600 ticks); when the readiness condition holds at no tick, the wait returns
the deadline error, whose message contains the cluster name, once the tick
budget is exhausted — it neither blocks past the deadline nor succeeds. -/
theorem wait_deadline_error :
    pollIntervalMs = 500 ∧ waitTimeoutMs = 5 * 60 * 1000 ∧
    maxTicks * pollIntervalMs = waitTimeoutMs ∧
    ∀ (clusterName : String) (ticks : List TickInput),
      ticks.length = maxTicks →
      (∀ inp ∈ ticks, evalSignalB inp.statusPayload = TickResult.cont) →
      waitForStandbyPromotion clusterName ticks = WaitOutcome.timedOut (timeoutMessage clusterName) ∧
      goContains (timeoutMessage clusterName) clusterName = true := by
  refine ⟨rfl, rfl, by decide, ?_⟩
  intro clusterName ticks _ h
  constructor
  · exact waitLoop_never clusterName ticks h false
  · exact goContains_mid ("timed out waiting for cluster ") clusterName (" to accept writes after disabling standby mode")

/-- Witness for C5 at a concrete run: 600 ticks that all observe "still in
recovery" and an unparseable status payload end in the deadline error. -/
theorem wait_deadline_error_witness :
    waitForStandbyPromotion ("c") (List.replicate 600 ⟨"t", none⟩) =
      WaitOutcome.timedOut (timeoutMessage ("c")) ∧
    goContains (timeoutMessage ("c")) ("c") = true := by
  refine wait_deadline_error.2.2.2 ("c") (List.replicate 600 ⟨"t", none⟩) ?_ ?_
  · rw [List.length_replicate]
    norm_num [maxTicks, waitTimeoutMs, pollIntervalMs]
  · intro inp hmem
    rw [List.eq_of_mem_replicate hmem]
    rfl

/-- C10 (confirmed): the recovery-disabled decision is the substring test
`strings.Contains(stdout, "f")`: on a tick where recovery is still considered
enabled, the new `recoveryDisabled` equals that test, which holds exactly when
the probe stdout contains the character f anywhere; and once true it stays
true on every later tick. -/
theorem recovery_disabled_is_contains_f :
    (∀ (s : String) (p : Option (List (String × JVal))),
      (tickStep false ⟨s, p⟩).1 = goContains s ("f")) ∧
    (∀ s : String, (goContains s ("f") = true ↔ 'f' ∈ s.data)) ∧
    (∀ inp : TickInput, (tickStep true inp).1 = true) := by
  exact ⟨fun s p => rfl, goContains_f, fun inp => rfl⟩

/-- Counterexample to C4 as stated: a status payload with an ill-typed
`pending_restart` field does not make the tick "not ready" — it faults the
wait (Go panics on the interface type assertion), so a malformed payload can
cause a fault. -/
theorem malformed_payload_faults :
    evalSignalB (some badPendingPayload) = TickResult.fault ∧
    tickStep true ⟨"", some badPendingPayload⟩ = (true, TickResult.fault) ∧
    waitLoop ("c") true [⟨"", some badPendingPayload⟩] = WaitOutcome.panicked := by
  decide

/-- C4 (corrected): on a tick with `recoveryDisabled` true, an unparseable
status payload, or one whose `state` field is anything other than the string
"running", is treated as "not ready": the tick yields no error and the wait
keeps polling. (A payload with state "running" and a present non-boolean
`pending_restart` field instead faults, per the counterexample.) -/
theorem malformed_payload_not_ready :
    (evalSignalB none = TickResult.cont) ∧
    (∀ obj : List (String × JVal), jlookup obj ("state") ≠ some (JVal.str ("running")) →
      evalSignalB (some obj) = TickResult.cont) ∧
    (∀ (clusterName : String) (inp : TickInput) (rest : List TickInput),
      evalSignalB inp.statusPayload = TickResult.cont →
      waitLoop clusterName true (inp :: rest) = waitLoop clusterName true rest) := by
  refine ⟨rfl, ?_, ?_⟩
  · intro obj h
    unfold evalSignalB
    simp [h]
  · intro clusterName inp rest h
    have h2 : (tickStep true inp).2 = TickResult.cont := h
    have h1 : (tickStep true inp).1 = true := rfl
    simp only [waitLoop, h2, h1]

/-- Witness for C4's amended statement at concrete inputs: a payload whose
state is a number is not ready, and a tick with an unparseable payload just
continues the loop. -/
theorem malformed_payload_not_ready_witness :
    evalSignalB (some [(("state"), JVal.num 3)]) = TickResult.cont ∧
    waitLoop ("c") true [⟨"x", none⟩, ⟨"y", none⟩] = waitLoop ("c") true [⟨"y", none⟩] := by
  exact ⟨malformed_payload_not_ready.2.1 [(("state"), JVal.num 3)] (by decide),
    malformed_payload_not_ready.2.2 ("c") ⟨"x", none⟩ [⟨"y", none⟩] (by decide)⟩

/-- Counterexample to C2 as stated: with exactly one matching pod, cleanup is
invoked but — because cleanup fails — creation is never invoked, so "cleanup
is invoked and then creation is invoked" does not hold for every
one-pod lookup. -/
theorem backup_create_skipped_on_cleanup_failure :
    backupEnvCleanupFails.pods.length = 1 ∧
    cleanAndCreatePostFailoverBackup backupEnvCleanupFails ("c") =
      ([BackupStep.cleanup], some ("cleanup failed")) ∧
    BackupStep.create ("repo-pod") ∉ (cleanAndCreatePostFailoverBackup backupEnvCleanupFails ("c")).1 := by
  decide

/-- C2 (corrected): with exactly one pod from a successful lookup, cleanup is
invoked first and creation is invoked after it exactly when cleanup succeeds
(with the pod's name); a cleanup failure surfaces that error with creation
skipped. With zero or more than one pod, no backup-subsystem call is made and
the returned error names the cluster. -/
theorem backup_orchestration_ordering (env : BackupEnv) (clusterName : String) :
    (env.pods.length = 1 → env.getErr = none →
      (env.cleanupErr = none →
        (cleanAndCreatePostFailoverBackup env clusterName).1 =
          [BackupStep.cleanup, BackupStep.create (env.pods.getD 0 (""))]) ∧
      (∀ e, env.cleanupErr = some e →
        cleanAndCreatePostFailoverBackup env clusterName = ([BackupStep.cleanup], some e))) ∧
    (env.pods.length ≠ 1 →
      cleanAndCreatePostFailoverBackup env clusterName = ([], some (podsLenMsg clusterName)) ∧
      goContains (podsLenMsg clusterName) clusterName = true) := by
  constructor
  · intro hlen hget
    constructor
    · intro hclean
      unfold cleanAndCreatePostFailoverBackup
      rw [hget, hclean]
      simp only [hlen]
      cases hc : env.createErr <;> simp
    · intro e hclean
      unfold cleanAndCreatePostFailoverBackup
      rw [hget, hclean]
      simp [hlen]
  · intro hlen
    constructor
    · unfold cleanAndCreatePostFailoverBackup
      simp [hlen]
    · exact goContains_append_sub ("pods len != 1 for cluster ") clusterName

/-- Witness for C2's amended statement: a one-pod lookup with all calls
succeeding issues cleanup then create, and a two-pod lookup issues nothing
and returns the cluster-naming error. -/
theorem backup_orchestration_ordering_witness :
    (cleanAndCreatePostFailoverBackup ⟨["p"], none, none, none⟩ ("c")).1 =
      [BackupStep.cleanup, BackupStep.create ("p")] ∧
    cleanAndCreatePostFailoverBackup ⟨["p", "q"], none, none, none⟩ ("c") =
      ([], some (podsLenMsg ("c"))) ∧
    goContains (podsLenMsg ("c")) ("c") = true := by
  refine ⟨((backup_orchestration_ordering ⟨["p"], none, none, none⟩ ("c")).1
    (by decide) rfl).1 rfl, ?_, ?_⟩
  · exact ((backup_orchestration_ordering ⟨["p", "q"], none, none, none⟩ ("c")).2 (by decide)).1
  · exact ((backup_orchestration_ordering ⟨["p", "q"], none, none, none⟩ ("c")).2 (by decide)).2

/-- C9 (confirmed): the `len(pods.Items) != 1` check precedes the lookup-error
check — a failed lookup that yields an empty pod list returns the pods-length
error naming the cluster, not the lookup error; the lookup error is surfaced
only when the failed lookup still yields exactly one pod. -/
theorem backup_len_check_before_lookup_error (env : BackupEnv) (clusterName e : String)
    (hget : env.getErr = some e) :
    (env.pods = [] →
      cleanAndCreatePostFailoverBackup env clusterName = ([], some (podsLenMsg clusterName))) ∧
    (env.pods.length = 1 →
      cleanAndCreatePostFailoverBackup env clusterName = ([], some e)) := by
  constructor
  · intro hnil
    unfold cleanAndCreatePostFailoverBackup
    simp [hnil]
  · intro hlen
    unfold cleanAndCreatePostFailoverBackup
    rw [hget]
    simp [hlen]

/-- Witness for C9: a lookup failing with error "boom" and no pods returns the
pods-length error; the same failure with one pod returns "boom". -/
theorem backup_len_check_before_lookup_error_witness :
    cleanAndCreatePostFailoverBackup ⟨[], some ("boom"), none, none⟩ ("c") =
      ([], some (podsLenMsg ("c"))) ∧
    cleanAndCreatePostFailoverBackup ⟨["p"], some ("boom"), none, none⟩ ("c") =
      ([], some ("boom")) := by
  exact ⟨(backup_len_check_before_lookup_error ⟨[], some ("boom"), none, none⟩ ("c") ("boom")
      rfl).1 rfl,
    (backup_len_check_before_lookup_error ⟨["p"], some ("boom"), none, none⟩ ("c") ("boom")
      rfl).2 (by decide)⟩

/-- C6 (confirmed): the standby-disable handler performs its steps in the
fixed order wait → optional credential-rotation task creation (only when the
cluster's feature label is "true", with parameters naming the cluster) →
backup orchestration, and the first failing step aborts the remaining ones
and surfaces its error. -/
theorem standby_promotion_step_order (env : HandlerEnv) (cluster : Pgcluster) :
    (∀ m, waitForStandbyPromotion cluster.name env.ticks = WaitOutcome.timedOut m →
      handleStandbyPromotion env cluster = HandlerResult.finished [HandlerStep.waitStep] (some m)) ∧
    (waitForStandbyPromotion cluster.name env.ticks = WaitOutcome.promoted →
      (lookupLabel cluster.labels LABEL_PGBOUNCER ≠ "true" →
        handleStandbyPromotion env cluster = HandlerResult.finished
          [HandlerStep.waitStep,
            HandlerStep.backupStep (cleanAndCreatePostFailoverBackup env.backupEnv cluster.name).1]
          (cleanAndCreatePostFailoverBackup env.backupEnv cluster.name).2) ∧
      (lookupLabel cluster.labels LABEL_PGBOUNCER = "true" →
        (LABEL_PGBOUNCER_TASK_CLUSTER, cluster.name) ∈ rotateParams cluster.name ∧
        (∀ e, env.rotateErr = some e →
          handleStandbyPromotion env cluster = HandlerResult.finished
            [HandlerStep.waitStep,
              HandlerStep.rotateStep cluster.name (rotateParams cluster.name)] (some e)) ∧
        (env.rotateErr = none →
          handleStandbyPromotion env cluster = HandlerResult.finished
            [HandlerStep.waitStep,
              HandlerStep.rotateStep cluster.name (rotateParams cluster.name),
              HandlerStep.backupStep (cleanAndCreatePostFailoverBackup env.backupEnv cluster.name).1]
            (cleanAndCreatePostFailoverBackup env.backupEnv cluster.name).2))) := by
  constructor
  · intro m hwait
    unfold handleStandbyPromotion
    rw [hwait]
  · intro hwait
    constructor
    · intro hlbl
      have hlbl' : (lookupLabel cluster.labels LABEL_PGBOUNCER == "true") = false :=
        beq_eq_false_iff_ne.mpr hlbl
      unfold handleStandbyPromotion
      rw [hwait]
      simp [hlbl']
    · intro hlbl
      have hlbl' : (lookupLabel cluster.labels LABEL_PGBOUNCER == "true") = true :=
        beq_iff_eq.mpr hlbl
      refine ⟨by simp [rotateParams], ?_, ?_⟩
      · intro e hrot
        unfold handleStandbyPromotion
        rw [hwait, hrot]
        simp [hlbl']
      · intro hrot
        unfold handleStandbyPromotion
        rw [hwait, hrot]
        simp [hlbl']

/-- Witness for C6 at a concrete run: wait succeeds, the rotation label is
set, rotation and backup both succeed — the handler performs wait, rotation,
then backup, and returns no error. -/
theorem standby_promotion_step_order_witness :
    handleStandbyPromotion ⟨[promotedTick], none, ⟨["p"], none, none, none⟩⟩ rotClusterC =
      HandlerResult.finished
        [HandlerStep.waitStep,
          HandlerStep.rotateStep ("c") (rotateParams ("c")),
          HandlerStep.backupStep [BackupStep.cleanup, BackupStep.create ("p")]] none := by
  have h := (((standby_promotion_step_order ⟨[promotedTick], none, ⟨["p"], none, none, none⟩⟩
    rotClusterC).2 (by decide)).2 (by decide)).2.2 rfl
  simpa using h

theorem validate_empty_target_isSome (env : CloneEnv) (req : CloneRequest) (src : Pgcluster)
    (h : req.targetClusterName = "") : (validateCloneRequest env req src).isSome = true := by
  unfold validateCloneRequest
  by_cases hs : req.sourceClusterName == ""
  · simp [hs]
  · simp [hs, h]

/-- Counterexample to C1 as stated: for a request with an empty
`TargetClusterName` the operation does reject with an Error status, but not
before a resource-store call — the get of the source cluster is issued first,
so the store-call trace is not empty. -/
theorem clone_empty_target_get_first :
    (Clone plainCloneEnv storeWithA emptyTargetReq ("ns") ("user")).response.status.code =
      StatusCode.Error ∧
    (Clone plainCloneEnv storeWithA emptyTargetReq ("ns") ("user")).ops =
      [StoreOp.getCluster ("a")] ∧
    (Clone plainCloneEnv storeWithA emptyTargetReq ("ns") ("user")).ops ≠ [] := by
  decide

/-- C1 (corrected): a clone request with an empty `TargetClusterName` always
returns an Error-status response and is rejected before any mutating
resource-store call: the only store call made is the initial get of the
source cluster, and the stored records are unchanged (no side effects). -/
theorem clone_empty_target_rejected (env : CloneEnv) (store : Store) (req : CloneRequest)
    (ns pgouser : String) (h : req.targetClusterName = "") :
    (Clone env store req ns pgouser).panicked = false ∧
    (Clone env store req ns pgouser).response.status.code = StatusCode.Error ∧
    (Clone env store req ns pgouser).store = store ∧
    (Clone env store req ns pgouser).ops = [StoreOp.getCluster req.sourceClusterName] := by
  unfold Clone
  cases hsrc : getCluster store req.sourceClusterName with
  | none => exact ⟨rfl, rfl, rfl, rfl⟩
  | some src =>
    obtain ⟨e, he⟩ :=
      Option.isSome_iff_exists.mp (validate_empty_target_isSome env req src h)
    dsimp only
    rw [he]
    exact ⟨rfl, rfl, rfl, rfl⟩

/-- Witness for C1's amended statement at the concrete empty-target request. -/
theorem clone_empty_target_rejected_witness :
    (Clone plainCloneEnv storeWithA emptyTargetReq ("ns") ("user")).panicked = false ∧
    (Clone plainCloneEnv storeWithA emptyTargetReq ("ns") ("user")).response.status.code =
      StatusCode.Error ∧
    (Clone plainCloneEnv storeWithA emptyTargetReq ("ns") ("user")).store = storeWithA ∧
    (Clone plainCloneEnv storeWithA emptyTargetReq ("ns") ("user")).ops =
      [StoreOp.getCluster emptyTargetReq.sourceClusterName] :=
  clone_empty_target_rejected plainCloneEnv storeWithA emptyTargetReq ("ns") ("user") rfl

/-- C7 (confirmed): when the clone request reaches the conflict check and the
task list for the target holds a first non-completed clone-labeled task, the
operation returns an Error response whose message names that task and advises
deleting it if stale, the store is unchanged, and the only store calls made
are the two gets and the task list — no WorkflowRecord and no Task is
created. -/
theorem clone_conflict_rejected (env : CloneEnv) (store : Store) (req : CloneRequest)
    (ns pgouser : String) (src : Pgcluster) (tsk : Pgtask)
    (hsrc : getCluster store req.sourceClusterName = some src)
    (hval : validateCloneRequest env req src = none)
    (hupg : lookupLabel src.annotations ANNOTATION_IS_UPGRADED ≠ ANNOTATIONS_FALSE)
    (htgt : getCluster store req.targetClusterName = none)
    (hlist : env.listTasksErr = none)
    (hfind : (store.tasks.filter
        (fun t => matchesSelector t.labels (cloneTaskSelector req.targetClusterName))).find?
        (fun t => t.specStatus != CompletedStatus) = some tsk) :
    Clone env store req ns pgouser =
      { response := errResponse (ongoingCloneMsg tsk.specName), store := store,
        ops := [StoreOp.getCluster req.sourceClusterName, StoreOp.getCluster req.targetClusterName,
          StoreOp.listTasks (cloneTaskSelector req.targetClusterName)],
        panicked := false } ∧
    goContains (ongoingCloneMsg tsk.specName) tsk.specName = true ∧
    goContains (ongoingCloneMsg tsk.specName) ("try deleting this pgtask CRD.") = true := by
  have hupg' : (lookupLabel src.annotations ANNOTATION_IS_UPGRADED == ANNOTATIONS_FALSE) = false :=
    beq_eq_false_iff_ne.mpr hupg
  refine ⟨?_, ?_, ?_⟩
  · unfold Clone
    rw [hsrc]
    dsimp only
    rw [hval, hupg']
    dsimp only
    rw [htgt]
    dsimp only
    rw [hlist]
    dsimp only
    rw [hfind]
    rfl
  · exact goContains_mid ("Could not clone cluster: there exists an ongoing clone task: [")
      tsk.specName ("]. " ++ "If you believe this is an error, try deleting this pgtask CRD.")
  · have h1 : goContains ("]. " ++ "If you believe this is an error, try deleting this pgtask CRD.")
        ("try deleting this pgtask CRD.") = true := by decide
    exact goContains_append_left ("Could not clone cluster: there exists an ongoing clone task: [")
      (tsk.specName ++ ("]. " ++ "If you believe this is an error, try deleting this pgtask CRD."))
      ("try deleting this pgtask CRD.")
      (goContains_append_left tsk.specName
        ("]. " ++ "If you believe this is an error, try deleting this pgtask CRD.")
        ("try deleting this pgtask CRD.") h1)

/-- Witness for C7 at a concrete conflicting store. -/
theorem clone_conflict_rejected_witness :
    Clone plainCloneEnv storeWithConflict cloneReqAB ("ns") ("user") =
      { response := errResponse (ongoingCloneMsg ongoingTaskB.specName),
        store := storeWithConflict,
        ops := [StoreOp.getCluster ("a"), StoreOp.getCluster ("b"),
          StoreOp.listTasks (cloneTaskSelector ("b"))],
        panicked := false } ∧
    goContains (ongoingCloneMsg ongoingTaskB.specName) ongoingTaskB.specName = true ∧
    goContains (ongoingCloneMsg ongoingTaskB.specName) ("try deleting this pgtask CRD.") = true := by
  have h := clone_conflict_rejected plainCloneEnv storeWithConflict cloneReqAB ("ns") ("user")
    { name := "a", namespc := "ns", labels := [], annotations := [], userLabels := [] }
    ongoingTaskB (by decide) (by decide) (by decide) (by decide) rfl (by decide)
  simpa using h

theorem isWorkflowRecordFor_workflowTaskRecord (tgt uid ns now id : String) :
    isWorkflowRecordFor tgt id (workflowTaskRecord tgt uid ns now id) = true := by
  have e1 : lookupLabel [(LABEL_PG_CLUSTER, tgt), (PgtaskWorkflowID, id)] LABEL_PG_CLUSTER = tgt := rfl
  have e2 : lookupLabel [(LABEL_PG_CLUSTER, tgt), (PgtaskWorkflowID, id)] PgtaskWorkflowID = id := rfl
  simp [isWorkflowRecordFor, workflowTaskRecord, e1, e2]

theorem isCloneStep1For_workflowTaskRecord (tgt uid ns now id : String) :
    isCloneStep1For tgt id (workflowTaskRecord tgt uid ns now id) = false := by
  have hne : (PgtaskWorkflow == PgtaskCloneStep1) = false := by decide
  simp [isCloneStep1For, workflowTaskRecord, hne]

theorem isCloneStep1For_cloneTask (req : CloneRequest) (pgouser now id : String) :
    isCloneStep1For req.targetClusterName id
      (cloneTaskCreate (cloneTaskFields req pgouser now id)) = true := by
  have e1 : lookupLabel [(LABEL_PGO_CLONE, "true"), (LABEL_PG_CLUSTER, req.targetClusterName),
      (PgtaskWorkflowID, id), (LABEL_PGO_CLONE_STEP_1, "true")] LABEL_PG_CLUSTER =
      req.targetClusterName := rfl
  have e2 : lookupLabel [(LABEL_PGO_CLONE, "true"), (LABEL_PG_CLUSTER, req.targetClusterName),
      (PgtaskWorkflowID, id), (LABEL_PGO_CLONE_STEP_1, "true")] PgtaskWorkflowID = id := rfl
  simp [isCloneStep1For, cloneTaskCreate, cloneTaskFields, e1, e2]

theorem isWorkflowRecordFor_cloneTask (req : CloneRequest) (pgouser now id : String) :
    isWorkflowRecordFor req.targetClusterName id
      (cloneTaskCreate (cloneTaskFields req pgouser now id)) = false := by
  have hne : (PgtaskCloneStep1 == PgtaskWorkflow) = false := by decide
  simp [isWorkflowRecordFor, cloneTaskCreate, cloneTaskFields, hne]

theorem Clone_success_eq (env : CloneEnv) (store : Store) (req : CloneRequest)
    (ns pgouser : String) (src : Pgcluster) (u : String)
    (hsrc : getCluster store req.sourceClusterName = some src)
    (hval : validateCloneRequest env req src = none)
    (hupg : lookupLabel src.annotations ANNOTATION_IS_UPGRADED ≠ ANNOTATIONS_FALSE)
    (htgt : getCluster store req.targetClusterName = none)
    (hlist : env.listTasksErr = none)
    (hnoconf : (store.tasks.filter
        (fun t => matchesSelector t.labels (cloneTaskSelector req.targetClusterName))).find?
        (fun t => t.specStatus != CompletedStatus) = none)
    (huuid : env.uuidFile = Except.ok u)
    (hulen : 2 ≤ u.data.length)
    (hwf : env.createWorkflowErr = none)
    (hcc : env.createCloneErr = none) :
    Clone env store req ns pgouser =
      { response :=
          { status := { code := StatusCode.Ok, msg := "" },
            targetClusterName := req.targetClusterName,
            workflowID := String.mk u.data.dropLast },
        store :=
          { clusters := store.clusters,
            tasks := (store.tasks ++
              [workflowTaskRecord req.targetClusterName env.uid ns env.nowStr
                (String.mk u.data.dropLast)]) ++
              [cloneTaskCreate (cloneTaskFields req pgouser env.nowStr
                (String.mk u.data.dropLast))] },
        ops := [StoreOp.getCluster req.sourceClusterName,
          StoreOp.getCluster req.targetClusterName,
          StoreOp.listTasks (cloneTaskSelector req.targetClusterName),
          StoreOp.createTask (workflowTaskRecord req.targetClusterName env.uid ns env.nowStr
            (String.mk u.data.dropLast)).name,
          StoreOp.createTask (cloneTaskCreate (cloneTaskFields req pgouser env.nowStr
            (String.mk u.data.dropLast))).name],
        panicked := false } := by
  have hupg' : (lookupLabel src.annotations ANNOTATION_IS_UPGRADED == ANNOTATIONS_FALSE) = false :=
    beq_eq_false_iff_ne.mpr hupg
  have hu0 : ¬(u.data.length = 0) := by omega
  unfold Clone
  rw [hsrc]
  dsimp only
  rw [hval, hupg']
  dsimp only
  rw [htgt]
  dsimp only
  rw [hlist]
  dsimp only
  rw [hnoconf]
  dsimp only
  unfold createWorkflowTask
  rw [huuid]
  dsimp only
  rw [if_neg hu0]
  rw [hwf]
  dsimp only
  rw [hcc]
  rfl

/-- C8 (confirmed): on the fully successful clone path — source found,
validation passing, source upgraded, target absent, no conflicting task, uuid
read yielding at least two bytes, all store writes succeeding, and no task
for the target present beforehand — the response has Ok status, the request's
target name and a non-empty workflow identifier, and afterwards exactly one
workflow record and exactly one clone-step-1 task for the target exist, both
labeled with that workflow identifier. -/
theorem clone_success_creates_workflow_and_task (env : CloneEnv) (store : Store)
    (req : CloneRequest) (ns pgouser : String) (src : Pgcluster) (u : String)
    (hsrc : getCluster store req.sourceClusterName = some src)
    (hval : validateCloneRequest env req src = none)
    (hupg : lookupLabel src.annotations ANNOTATION_IS_UPGRADED ≠ ANNOTATIONS_FALSE)
    (htgt : getCluster store req.targetClusterName = none)
    (hlist : env.listTasksErr = none)
    (hnoconf : (store.tasks.filter
        (fun t => matchesSelector t.labels (cloneTaskSelector req.targetClusterName))).find?
        (fun t => t.specStatus != CompletedStatus) = none)
    (huuid : env.uuidFile = Except.ok u)
    (hulen : 2 ≤ u.data.length)
    (hwf : env.createWorkflowErr = none)
    (hcc : env.createCloneErr = none)
    (hfresh : ∀ t ∈ store.tasks, lookupLabel t.labels LABEL_PG_CLUSTER ≠ req.targetClusterName) :
    (Clone env store req ns pgouser).panicked = false ∧
    (Clone env store req ns pgouser).response.status.code = StatusCode.Ok ∧
    (Clone env store req ns pgouser).response.targetClusterName = req.targetClusterName ∧
    (Clone env store req ns pgouser).response.workflowID ≠ "" ∧
    ((Clone env store req ns pgouser).store.tasks.filter
      (isWorkflowRecordFor req.targetClusterName
        (Clone env store req ns pgouser).response.workflowID)).length = 1 ∧
    ((Clone env store req ns pgouser).store.tasks.filter
      (isCloneStep1For req.targetClusterName
        (Clone env store req ns pgouser).response.workflowID)).length = 1 := by
  have hr := Clone_success_eq env store req ns pgouser src u hsrc hval hupg htgt hlist hnoconf
    huuid hulen hwf hcc
  rw [hr]
  refine ⟨rfl, rfl, rfl, ?_, ?_, ?_⟩
  · intro h
    have hd : u.data.dropLast = List.nil := congrArg String.data h
    have hl := congrArg List.length hd
    rw [List.length_dropLast] at hl
    simp only [List.length_nil] at hl
    omega
  · have hA : store.tasks.filter
        (isWorkflowRecordFor req.targetClusterName (String.mk u.data.dropLast)) = [] := by
      refine List.filter_eq_nil_iff.mpr (fun t ht => ?_)
      have hb : (lookupLabel t.labels LABEL_PG_CLUSTER == req.targetClusterName) = false :=
        beq_eq_false_iff_ne.mpr (hfresh t ht)
      simp [isWorkflowRecordFor, hb]
    rw [List.filter_append, List.filter_append, hA]
    simp [isWorkflowRecordFor_workflowTaskRecord, isWorkflowRecordFor_cloneTask]
  · have hA : store.tasks.filter
        (isCloneStep1For req.targetClusterName (String.mk u.data.dropLast)) = [] := by
      refine List.filter_eq_nil_iff.mpr (fun t ht => ?_)
      have hb : (lookupLabel t.labels LABEL_PG_CLUSTER == req.targetClusterName) = false :=
        beq_eq_false_iff_ne.mpr (hfresh t ht)
      simp [isCloneStep1For, hb]
    rw [List.filter_append, List.filter_append, hA]
    simp [isCloneStep1For_workflowTaskRecord, isCloneStep1For_cloneTask]

/-- Witness for C8 at the end-to-end scenario: "a" exists and is upgraded,
"b" does not exist, no conflicting task exists, every write succeeds. -/
theorem clone_success_creates_workflow_and_task_witness :
    (Clone plainCloneEnv storeWithA cloneReqAB ("ns") ("user")).panicked = false ∧
    (Clone plainCloneEnv storeWithA cloneReqAB ("ns") ("user")).response.status.code =
      StatusCode.Ok ∧
    (Clone plainCloneEnv storeWithA cloneReqAB ("ns") ("user")).response.targetClusterName =
      cloneReqAB.targetClusterName ∧
    (Clone plainCloneEnv storeWithA cloneReqAB ("ns") ("user")).response.workflowID ≠ "" ∧
    ((Clone plainCloneEnv storeWithA cloneReqAB ("ns") ("user")).store.tasks.filter
      (isWorkflowRecordFor cloneReqAB.targetClusterName
        (Clone plainCloneEnv storeWithA cloneReqAB ("ns") ("user")).response.workflowID)).length = 1 ∧
    ((Clone plainCloneEnv storeWithA cloneReqAB ("ns") ("user")).store.tasks.filter
      (isCloneStep1For cloneReqAB.targetClusterName
        (Clone plainCloneEnv storeWithA cloneReqAB ("ns") ("user")).response.workflowID)).length = 1 := by
  exact clone_success_creates_workflow_and_task plainCloneEnv storeWithA cloneReqAB ("ns") ("user")
    { name := "a", namespc := "ns", labels := [], annotations := [], userLabels := [] }
    ("0123456789abcdef0123456789abcdef0123\n")
    (by decide) (by decide) (by decide) (by decide) rfl (by decide) rfl (by decide) rfl rfl
    (by simp [storeWithA])
